import Mathlib

/-!
Verification of the QuickChat client (`src/ChatApp.tsx`).

The client keeps React state: a message list, the current input text, a
connection record (`status` plus optional `partnerId`), the online-user
count and the partner-typing flag.  User actions (`handleConnect`,
`handleSendMessage`, `handleNext`, `handleDisconnect`, `handleInputChange`)
and socket events (`partner_found`, `partner_disconnected`,
`message_received`, ...) each update this state and may emit client-to-server
events.  We embed the state and every handler as pure functions returning
the new state together with the list of emitted events, and prove the
claimed properties about them.
-/

namespace QuickChat

/-- `Message.sender` in `ChatApp.tsx`: `'user' | 'partner'`. -/
inductive Sender where
  | user
  | partner
deriving DecidableEq, Repr

/-- The `Message` interface of `ChatApp.tsx`. -/
structure Message where
  id : String
  text : String
  sender : Sender
  timestamp : Nat
deriving DecidableEq, Repr

/-- `ConnectionState.status` in `ChatApp.tsx`. -/
inductive Status where
  | disconnected
  | connecting
  | waiting
  | connected
deriving DecidableEq, Repr

/-- The `ConnectionState` interface: `status` plus optional `partnerId`.
A `setConnection` object literal without a `partnerId` field leaves the
property `undefined`, embedded as `none`. -/
structure ConnectionState where
  status : Status
  partnerId : Option String := none
deriving DecidableEq, Repr

/-- The React state of the `ChatApp` component, plus the two refs that
carry behaviour: `socketRef` (whether a socket object is present) and
`typingTimeoutRef` (the pending `typing_stop` timeout, embedded as the
absolute fire time in milliseconds). -/
structure ClientState where
  messages : List Message
  currentMessage : String
  connection : ConnectionState
  onlineUsers : Nat
  isTyping : Bool
  hasSocket : Bool
  typingTimeout : Option Nat
deriving DecidableEq, Repr

/-- Client-to-server events emitted through `socket.emit`. -/
inductive ClientEvent where
  | find_partner
  | send_message (text : String)
  | typing_start
  | typing_stop
  | next_partner
  | disconnect_chat
deriving DecidableEq, Repr

/-- JavaScript `String.prototype.trim`: strips leading and trailing
whitespace.  Embedded structurally over the character list so that it
evaluates on concrete strings. -/
def jsTrim (s : String) : String :=
  String.mk (((s.data.dropWhile Char.isWhitespace).reverse.dropWhile Char.isWhitespace).reverse)

/-- `handleConnect`: on the Start-Chatting button.  Guard:
`socketRef.current && connection.status === 'disconnected'`. -/
def handleConnect (s : ClientState) : ClientState × List ClientEvent :=
  if s.hasSocket = true ∧ s.connection.status = Status.disconnected then
    ({ s with connection := ⟨Status.connecting, none⟩ }, [ClientEvent.find_partner])
  else
    (s, [])

/-- `handleSendMessage`: returns early when
`!currentMessage.trim() || connection.status !== 'connected' || !socketRef.current`;
otherwise appends the message locally with sender `'user'`, emits
`send_message {text}` followed by `typing_stop`, and clears the input.
`now` stands for `Date.now()`. -/
def handleSendMessage (s : ClientState) (now : Nat) : ClientState × List ClientEvent :=
  if jsTrim s.currentMessage = "" ∨ s.connection.status ≠ Status.connected ∨ s.hasSocket = false then
    (s, [])
  else
    let newMessage : Message :=
      { id := toString now, text := s.currentMessage, sender := Sender.user, timestamp := now }
    ({ s with messages := s.messages ++ [newMessage], currentMessage := "" },
     [ClientEvent.send_message s.currentMessage, ClientEvent.typing_stop])

/-- `handleNext`: on the Next button.  Guard
`connection.status === 'connected' && socketRef.current`; emits
`next_partner`, moves to `waiting`, appends the system notice and clears
the typing indicator. -/
def handleNext (s : ClientState) (now : Nat) : ClientState × List ClientEvent :=
  if s.connection.status = Status.connected ∧ s.hasSocket = true then
    ({ s with
        connection := ⟨Status.waiting, none⟩,
        messages := s.messages ++
          [{ id := "system_" ++ toString now, text := "Looking for a new partner...",
             sender := Sender.user, timestamp := now }],
        isTyping := false },
     [ClientEvent.next_partner])
  else
    (s, [])

/-- `handleDisconnect`: on the Disconnect button. -/
def handleDisconnect (s : ClientState) : ClientState × List ClientEvent :=
  if s.hasSocket = true then
    ({ s with connection := ⟨Status.disconnected, none⟩, messages := [], isTyping := false },
     [ClientEvent.disconnect_chat])
  else
    (s, [])

/-- `handleInputChange`: stores the new input value; when connected (and a
socket exists) emits `typing_start`, clears any pending typing timeout and
schedules `typing_stop` 1000 ms from `now`. -/
def handleInputChange (s : ClientState) (v : String) (now : Nat) :
    ClientState × List ClientEvent :=
  let s1 := { s with currentMessage := v }
  if s1.connection.status = Status.connected ∧ s1.hasSocket = true then
    ({ s1 with typingTimeout := some (now + 1000) }, [ClientEvent.typing_start])
  else
    (s1, [])

/-- The `setTimeout` callback of `handleInputChange` firing: consumes the
pending timeout and emits `typing_stop` when a socket exists. -/
def fireTypingTimeout (s : ClientState) : ClientState × List ClientEvent :=
  match s.typingTimeout with
  | none => (s, [])
  | some _ =>
    if s.hasSocket = true then
      ({ s with typingTimeout := none }, [ClientEvent.typing_stop])
    else
      ({ s with typingTimeout := none }, [])

/-- `socket.on('connect')`: ready to find a partner. -/
def onConnect (s : ClientState) : ClientState :=
  { s with connection := ⟨Status.disconnected, none⟩ }

/-- `socket.on('disconnect')`: transport-level disconnect. -/
def onDisconnect (s : ClientState) : ClientState :=
  { s with connection := ⟨Status.disconnected, none⟩, messages := [], isTyping := false }

/-- `socket.on('online_count')`. -/
def onOnlineCount (s : ClientState) (count : Nat) : ClientState :=
  { s with onlineUsers := count }

/-- `socket.on('waiting_for_partner')`. -/
def onWaitingForPartner (s : ClientState) (now : Nat) : ClientState :=
  { s with
      connection := ⟨Status.waiting, none⟩,
      messages := [{ id := "system_" ++ toString now,
                     text := "Looking for someone to chat with...",
                     sender := Sender.user, timestamp := now }] }

/-- `socket.on('partner_found')`: records the partner id, becomes
`connected`, and resets the message list to the announcement. -/
def onPartnerFound (s : ClientState) (partnerId message : String) (now : Nat) : ClientState :=
  { s with
      connection := ⟨Status.connected, some partnerId⟩,
      messages := [{ id := "system_1", text := message,
                     sender := Sender.user, timestamp := now }] }

/-- `socket.on('partner_disconnected')`: back to `waiting`, appends the
server's message, clears the typing indicator. -/
def onPartnerDisconnected (s : ClientState) (message : String) (now : Nat) : ClientState :=
  { s with
      connection := ⟨Status.waiting, none⟩,
      messages := s.messages ++
        [{ id := "system_" ++ toString now, text := message,
           sender := Sender.user, timestamp := now }],
      isTyping := false }

/-- `socket.on('message_received')`: appends the delivered message verbatim
and clears the typing indicator. -/
def onMessageReceived (s : ClientState) (m : Message) : ClientState :=
  { s with messages := s.messages ++ [m], isTyping := false }

/-- `socket.on('partner_typing_start')`. -/
def onPartnerTypingStart (s : ClientState) : ClientState :=
  { s with isTyping := true }

/-- `socket.on('partner_typing_stop')`. -/
def onPartnerTypingStop (s : ClientState) : ClientState :=
  { s with isTyping := false }

/-- Every way the client state can change: a user action, the typing
timeout firing, or a server-to-client socket event. -/
inductive Action where
  | connectClick
  | sendClick (now : Nat)
  | nextClick (now : Nat)
  | disconnectClick
  | inputChange (v : String) (now : Nat)
  | timeoutFires
  | srvConnect
  | srvDisconnect
  | srvOnlineCount (n : Nat)
  | srvWaiting (now : Nat)
  | srvPartnerFound (pid msg : String) (now : Nat)
  | srvPartnerDisconnected (msg : String) (now : Nat)
  | srvMessageReceived (m : Message)
  | srvTypingStart
  | srvTypingStop
deriving DecidableEq, Repr

/-- One step of the client: dispatches an `Action` to the handler embedded
from `ChatApp.tsx`; socket events emit nothing. -/
def step (s : ClientState) : Action → ClientState × List ClientEvent
  | Action.connectClick => handleConnect s
  | Action.sendClick now => handleSendMessage s now
  | Action.nextClick now => handleNext s now
  | Action.disconnectClick => handleDisconnect s
  | Action.inputChange v now => handleInputChange s v now
  | Action.timeoutFires => fireTypingTimeout s
  | Action.srvConnect => (onConnect s, [])
  | Action.srvDisconnect => (onDisconnect s, [])
  | Action.srvOnlineCount n => (onOnlineCount s n, [])
  | Action.srvWaiting now => (onWaitingForPartner s now, [])
  | Action.srvPartnerFound pid msg now => (onPartnerFound s pid msg now, [])
  | Action.srvPartnerDisconnected msg now => (onPartnerDisconnected s msg now, [])
  | Action.srvMessageReceived m => (onMessageReceived s m, [])
  | Action.srvTypingStart => (onPartnerTypingStart s, [])
  | Action.srvTypingStop => (onPartnerTypingStop s, [])

/-- Modelled from the spec: the server-side relay of `send_message`, which
is not part of this client-only repository.  Per the spec (§4.5, §6), a
message from a `Paired` sender is assigned an id and timestamp and is
forwarded to the partner's send-handle tagged `sender: "partner"`; it is
not relayed back to the sender.  The result lists the deliveries as
(recipient id, delivered message) pairs. -/
def relaySendMessage (partnerId : String) (text : String) (msgId : String)
    (now : Nat) : List (String × Message) :=
  [(partnerId, { id := msgId, text := text, sender := Sender.partner, timestamp := now })]

/-- Events whose emission the spec restricts to the `Paired` (client
`connected`) state: `send_message`, `typing_start`, `next_partner`. -/
def pairedOnlyEvent : ClientEvent → Prop
  | ClientEvent.send_message _ => True
  | ClientEvent.typing_start => True
  | ClientEvent.next_partner => True
  | _ => False

/-- A concrete state used by the witnesses: connected to partner "p1". -/
def sampleConnected : ClientState :=
  { messages := []
    currentMessage := "hi"
    connection := ⟨Status.connected, some "p1"⟩
    onlineUsers := 2
    isTyping := false
    hasSocket := true
    typingTimeout := none }

/-- A concrete state used by the witnesses: waiting, no partner. -/
def sampleWaiting : ClientState :=
  { messages := []
    currentMessage := "hi"
    connection := ⟨Status.waiting, none⟩
    onlineUsers := 2
    isTyping := false
    hasSocket := true
    typingTimeout := none }

end QuickChat

namespace QuickChat

lemma handleSendMessage_not_connected (s : ClientState) (now : Nat)
    (hne : s.connection.status ≠ Status.connected) :
    handleSendMessage s now = (s, []) := by
  rw [handleSendMessage, if_pos (Or.inr (Or.inl hne))]

lemma handleInputChange_not_connected (s : ClientState) (v : String) (now : Nat)
    (hne : s.connection.status ≠ Status.connected) :
    handleInputChange s v now = ({ s with currentMessage := v }, []) := by
  rw [handleInputChange]
  exact if_neg (fun h => hne h.1)

lemma handleNext_not_connected (s : ClientState) (now : Nat)
    (hne : s.connection.status ≠ Status.connected) :
    handleNext s now = (s, []) := by
  rw [handleNext]
  exact if_neg (fun h => hne h.1)

end QuickChat

namespace QuickChat

/-- C1: a send attempt goes through only when the input text is non-empty
after trimming (and, given the input field's `maxLength={500}` bound on the
stored text, the sent text is at most 500 units long); a whitespace-only
attempt emits nothing and leaves the state, message list included,
unchanged. -/
theorem sendMessage_validated (s : ClientState) (now : Nat)
    (hlen : s.currentMessage.length ≤ 500) :
    (jsTrim s.currentMessage = "" → handleSendMessage s now = (s, [])) ∧
    (∀ t, ClientEvent.send_message t ∈ (handleSendMessage s now).2 →
      jsTrim t ≠ "" ∧ t.length ≤ 500) := by
  constructor
  · intro h
    rw [handleSendMessage, if_pos (Or.inl h)]
  · intro t ht
    rw [handleSendMessage] at ht
    split at ht
    · simp at ht
    · rename_i h
      push_neg at h
      simp only [List.mem_cons, List.mem_singleton] at ht
      rcases ht with ht | ht | ht
      · cases ht
        exact ⟨h.1, hlen⟩
      · cases ht
      · cases ht

/-- C1 witness at concrete states: a whitespace-only input sends nothing,
and a sent text is trimmed-non-empty and within the cap. -/
theorem sendMessage_validated_witness :
    handleSendMessage { sampleConnected with currentMessage := "   " } 4 =
      ({ sampleConnected with currentMessage := "   " }, []) :=
  (sendMessage_validated { sampleConnected with currentMessage := "   " } 4
    (by decide)).1 (by decide)

/-- C3: `partner_found {partnerId, message}` makes the client `connected`
with exactly that partner id recorded, and resets the message list to the
single announcement message. -/
theorem partnerFound_connects (s : ClientState) (pid msg : String) (now : Nat) :
    (onPartnerFound s pid msg now).connection.status = Status.connected ∧
    (onPartnerFound s pid msg now).connection.partnerId = some pid ∧
    (onPartnerFound s pid msg now).messages =
      [{ id := "system_1", text := msg, sender := Sender.user, timestamp := now }] :=
  ⟨rfl, rfl, rfl⟩

/-- C4: `partner_disconnected` moves the client to `waiting` (not
`disconnected`), drops the old partner id, and clears the partner-typing
indicator. -/
theorem partnerDisconnected_to_waiting (s : ClientState) (msg : String) (now : Nat) :
    (onPartnerDisconnected s msg now).connection.status = Status.waiting ∧
    (onPartnerDisconnected s msg now).connection.partnerId = none ∧
    (onPartnerDisconnected s msg now).isTyping = false :=
  ⟨rfl, rfl, rfl⟩

/-- C9: `message_received`, `partner_disconnected` and the transport-level
`disconnect` all clear the partner-typing indicator. -/
theorem typingIndicator_cleared (s : ClientState) (m : Message) (msg : String) (now : Nat) :
    (onMessageReceived s m).isTyping = false ∧
    (onPartnerDisconnected s msg now).isTyping = false ∧
    (onDisconnect s).isTyping = false :=
  ⟨rfl, rfl, rfl⟩

/-- C6: the Next button, while `connected` (with the socket present), emits
exactly one `next_partner`, moves to `waiting`, appends the system notice
and clears the typing indicator; in any other status it emits nothing and
changes nothing. -/
theorem next_behaviour (s : ClientState) (now : Nat) :
    (s.connection.status = Status.connected → s.hasSocket = true →
      handleNext s now =
        ({ s with
            connection := ⟨Status.waiting, none⟩,
            messages := s.messages ++
              [{ id := "system_" ++ toString now, text := "Looking for a new partner...",
                 sender := Sender.user, timestamp := now }],
            isTyping := false },
         [ClientEvent.next_partner])) ∧
    (s.connection.status ≠ Status.connected → handleNext s now = (s, [])) := by
  constructor
  · intro hc hs
    rw [handleNext, if_pos ⟨hc, hs⟩]
  · intro hne
    exact handleNext_not_connected s now hne

/-- C6 witness: concrete Next click while connected, and while waiting. -/
theorem next_behaviour_witness :
    handleNext sampleConnected 5 =
      ({ sampleConnected with
          connection := ⟨Status.waiting, none⟩,
          messages := sampleConnected.messages ++
            [{ id := "system_" ++ toString 5, text := "Looking for a new partner...",
               sender := Sender.user, timestamp := 5 }],
          isTyping := false },
       [ClientEvent.next_partner]) ∧
    handleNext sampleWaiting 5 = (sampleWaiting, []) :=
  ⟨(next_behaviour sampleConnected 5).1 rfl rfl,
   (next_behaviour sampleWaiting 5).2 (by decide)⟩

/-- C10: Start Chatting emits `find_partner` only from the `disconnected`
status, transitioning to `connecting`; from any other status it emits
nothing and leaves the whole state unchanged. -/
theorem connect_gating (s : ClientState) :
    (s.hasSocket = true → s.connection.status = Status.disconnected →
      handleConnect s =
        ({ s with connection := ⟨Status.connecting, none⟩ }, [ClientEvent.find_partner])) ∧
    (s.connection.status ≠ Status.disconnected → handleConnect s = (s, [])) := by
  constructor
  · intro hs hd
    rw [handleConnect, if_pos ⟨hs, hd⟩]
  · intro hne
    rw [handleConnect]
    exact if_neg (fun h => hne h.2)

/-- C10 witness: concrete Start-Chatting click from `disconnected` and a
second click from the resulting `connecting` state. -/
theorem connect_gating_witness :
    handleConnect { sampleWaiting with connection := ⟨Status.disconnected, none⟩ } =
      ({ sampleWaiting with connection := ⟨Status.connecting, none⟩ },
       [ClientEvent.find_partner]) ∧
    handleConnect { sampleWaiting with connection := ⟨Status.connecting, none⟩ } =
      ({ sampleWaiting with connection := ⟨Status.connecting, none⟩ }, []) :=
  ⟨(connect_gating { sampleWaiting with connection := ⟨Status.disconnected, none⟩ }).1 rfl rfl,
   (connect_gating { sampleWaiting with connection := ⟨Status.connecting, none⟩ }).2 (by decide)⟩

end QuickChat

namespace QuickChat

lemma handleInputChange_connected (s : ClientState) (v : String) (now : Nat)
    (hc : s.connection.status = Status.connected) (hs : s.hasSocket = true) :
    handleInputChange s v now =
      ({ s with currentMessage := v, typingTimeout := some (now + 1000) },
       [ClientEvent.typing_start]) := by
  rw [handleInputChange]
  exact if_pos ⟨hc, hs⟩

lemma handleSendMessage_sends (s : ClientState) (now : Nat)
    (ht : jsTrim s.currentMessage ≠ "") (hc : s.connection.status = Status.connected)
    (hs : s.hasSocket = true) :
    handleSendMessage s now =
      ({ s with
          messages := s.messages ++
            [{ id := toString now, text := s.currentMessage, sender := Sender.user,
               timestamp := now }],
          currentMessage := "" },
       [ClientEvent.send_message s.currentMessage, ClientEvent.typing_stop]) := by
  rw [handleSendMessage]
  rw [if_neg]
  push_neg
  exact ⟨ht, hc, by simp [hs]⟩

/-- C2: while the client is not `connected`, the send handler and the Next
handler emit nothing and change nothing, the input-change handler emits
nothing; and no step of the client emits `send_message`, `typing_start` or
`next_partner` from a non-connected state, so these three events are
emitted only while `connected`. -/
theorem paired_events_only_when_connected (s : ClientState)
    (hne : s.connection.status ≠ Status.connected) :
    (∀ now, handleSendMessage s now = (s, [])) ∧
    (∀ v now, (handleInputChange s v now).2 = []) ∧
    (∀ now, handleNext s now = (s, [])) ∧
    (∀ a, ∀ e ∈ (step s a).2, ¬ pairedOnlyEvent e) := by
  refine ⟨fun now => handleSendMessage_not_connected s now hne,
          fun v now => by rw [handleInputChange_not_connected s v now hne],
          fun now => handleNext_not_connected s now hne, ?_⟩
  intro a e he hp
  cases a with
  | connectClick =>
    simp only [step, handleConnect] at he
    split at he
    · simp only [List.mem_singleton] at he
      subst he
      exact hp
    · simp at he
  | sendClick now =>
    simp only [step, handleSendMessage_not_connected s now hne] at he
    simp at he
  | nextClick now =>
    simp only [step, handleNext_not_connected s now hne] at he
    simp at he
  | disconnectClick =>
    simp only [step, handleDisconnect] at he
    split at he
    · simp only [List.mem_singleton] at he
      subst he
      exact hp
    · simp at he
  | inputChange v now =>
    simp only [step, handleInputChange_not_connected s v now hne] at he
    simp at he
  | timeoutFires =>
    simp only [step, fireTypingTimeout] at he
    split at he
    · simp at he
    · split at he
      · simp only [List.mem_singleton] at he
        subst he
        exact hp
      · simp at he
  | srvConnect => simp [step] at he
  | srvDisconnect => simp [step] at he
  | srvOnlineCount n => simp [step] at he
  | srvWaiting now => simp [step] at he
  | srvPartnerFound pid msg now => simp [step] at he
  | srvPartnerDisconnected msg now => simp [step] at he
  | srvMessageReceived m => simp [step] at he
  | srvTypingStart => simp [step] at he
  | srvTypingStop => simp [step] at he

/-- C2 witness: in the concrete `waiting` state the three handlers emit
nothing. -/
theorem paired_events_only_when_connected_witness :
    handleSendMessage sampleWaiting 3 = (sampleWaiting, []) ∧
    (handleInputChange sampleWaiting "a" 3).2 = [] ∧
    handleNext sampleWaiting 3 = (sampleWaiting, []) :=
  ⟨(paired_events_only_when_connected sampleWaiting (by decide)).1 3,
   (paired_events_only_when_connected sampleWaiting (by decide)).2.1 "a" 3,
   (paired_events_only_when_connected sampleWaiting (by decide)).2.2.1 3⟩

/-- C5: an input change while connected emits `typing_start` and schedules
`typing_stop` for 1000 ms later; any further input change replaces the
pending timeout with a fresh one (the state holds at most one pending
timeout, so the earlier scheduled emission is cancelled); and when the
pending timeout fires, the client emits `typing_stop`. -/
theorem typing_autostop (s : ClientState) (v : String) (now : Nat)
    (hc : s.connection.status = Status.connected) (hs : s.hasSocket = true) :
    ((handleInputChange s v now).1.typingTimeout = some (now + 1000)) ∧
    ((handleInputChange s v now).2 = [ClientEvent.typing_start]) ∧
    (∀ v2 now2,
      (handleInputChange (handleInputChange s v now).1 v2 now2).1.typingTimeout =
        some (now2 + 1000)) ∧
    ((fireTypingTimeout (handleInputChange s v now).1).2 = [ClientEvent.typing_stop]) := by
  rw [handleInputChange_connected s v now hc hs]
  refine ⟨rfl, rfl, ?_, ?_⟩
  · intro v2 now2
    show (handleInputChange { s with currentMessage := v, typingTimeout := some (now + 1000) }
        v2 now2).1.typingTimeout = some (now2 + 1000)
    rw [handleInputChange_connected
      { s with currentMessage := v, typingTimeout := some (now + 1000) } v2 now2 hc hs]
  · simp [fireTypingTimeout, hs]

/-- C5 witness: concrete input change while connected, rescheduling, and
the fire of the pending timeout. -/
theorem typing_autostop_witness :
    ((handleInputChange sampleConnected "h" 0).1.typingTimeout = some (0 + 1000)) ∧
    ((fireTypingTimeout (handleInputChange sampleConnected "h" 0).1).2 =
      [ClientEvent.typing_stop]) :=
  ⟨(typing_autostop sampleConnected "h" 0 rfl rfl).1,
   (typing_autostop sampleConnected "h" 0 rfl rfl).2.2.2⟩

/-- C7: a successful send appends the message locally tagged sender
`user` (the echo is local) and emits `send_message`; every
`message_received` delivery is appended verbatim, carrying the server's
`sender: "partner"` tag; and the spec-modelled relay delivers the message
only to the partner — the sender is never among the recipients. -/
theorem message_echo_and_relay (s : ClientState) (now : Nat)
    (ht : jsTrim s.currentMessage ≠ "") (hc : s.connection.status = Status.connected)
    (hs : s.hasSocket = true) :
    ((handleSendMessage s now).1.messages =
      s.messages ++
        [{ id := toString now, text := s.currentMessage, sender := Sender.user,
           timestamp := now }]) ∧
    ((handleSendMessage s now).2 =
      [ClientEvent.send_message s.currentMessage, ClientEvent.typing_stop]) ∧
    (∀ m, (onMessageReceived s m).messages = s.messages ++ [m]) ∧
    (∀ senderId partnerId text msgId ts, partnerId ≠ senderId →
      ∀ d ∈ relaySendMessage partnerId text msgId ts,
        d.1 ≠ senderId ∧ d.2.sender = Sender.partner) := by
  rw [handleSendMessage_sends s now ht hc hs]
  refine ⟨rfl, rfl, fun m => rfl, ?_⟩
  intro senderId partnerId text msgId ts hne d hd
  simp only [relaySendMessage, List.mem_singleton] at hd
  subst hd
  exact ⟨hne, rfl⟩

/-- C7 witness: concrete send from the connected sample state. -/
theorem message_echo_and_relay_witness :
    (handleSendMessage sampleConnected 7).1.messages =
      sampleConnected.messages ++
        [{ id := toString 7, text := sampleConnected.currentMessage, sender := Sender.user,
           timestamp := 7 }] :=
  (message_echo_and_relay sampleConnected 7 (by decide) rfl rfl).1

/-- C8: the connection-state invariant — a partner id is recorded only in
the `connected` status, and every transition into `disconnected`,
`connecting` or `waiting` drops any held partner id — is preserved by
every user action, timeout fire and socket event. -/
theorem partnerId_only_when_connected (s : ClientState) (a : Action)
    (hinv : s.connection.status ≠ Status.connected → s.connection.partnerId = none) :
    (step s a).1.connection.status ≠ Status.connected →
      (step s a).1.connection.partnerId = none := by
  cases a with
  | connectClick =>
    simp only [step, handleConnect]
    split
    · intro _; rfl
    · exact hinv
  | sendClick now =>
    simp only [step, handleSendMessage]
    split
    · exact hinv
    · exact hinv
  | nextClick now =>
    simp only [step, handleNext]
    split
    · intro _; rfl
    · exact hinv
  | disconnectClick =>
    simp only [step, handleDisconnect]
    split
    · intro _; rfl
    · exact hinv
  | inputChange v now =>
    simp only [step, handleInputChange]
    split
    · exact hinv
    · exact hinv
  | timeoutFires =>
    simp only [step, fireTypingTimeout]
    split
    · exact hinv
    · split
      · exact hinv
      · exact hinv
  | srvConnect => intro _; rfl
  | srvDisconnect => intro _; rfl
  | srvOnlineCount n => exact hinv
  | srvWaiting now => intro _; rfl
  | srvPartnerFound pid msg now => intro h; exact absurd rfl h
  | srvPartnerDisconnected msg now => intro _; rfl
  | srvMessageReceived m => exact hinv
  | srvTypingStart => exact hinv
  | srvTypingStop => exact hinv

/-- C8 witness: the invariant applied to a concrete `partner_disconnected`
event on the connected sample state. -/
theorem partnerId_only_when_connected_witness :
    (step sampleConnected (Action.srvPartnerDisconnected "bye" 9)).1.connection.partnerId =
      none :=
  partnerId_only_when_connected sampleConnected (Action.srvPartnerDisconnected "bye" 9)
    (by decide) (by decide)

end QuickChat
